import Mathlib

/-!
Shallow embedding of `src/scripts/oidc_credential_provider.py`: the OIDC
credential-federation engine (token cache, credential cache, the Auth0 and
Cognito exchange strategies), the atomic file publication helper, and the
three delivery modes (credential-process emission, credential-file daemon,
token-file daemon).

Modelling conventions:
- Timestamps (`datetime` values) are `Int` seconds since the Unix epoch,
  always in UTC (the source only ever builds `datetime.now(timezone.utc)`
  and tz-aware datetimes).
- Each outbound HTTP call is an oracle parameter of type `HttpResult α`:
  `failure` covers a network error, a non-2xx status (`raise_for_status`)
  or a malformed JSON body (`.json()` raising); `ok` carries the parsed
  JSON body.  The call performed is recorded in a `NetEvent` trace so that
  "no network call occurs" is the proposition `trace = []`.
- Python truthiness is modelled where the source relies on it: the guard
  `if self._oidc_token and self._oidc_expires:` treats the empty string as
  falsy, while `if self._aws_creds:` tests a dataclass instance, which is
  always truthy when present.
-/

/-- `REFRESH_BUFFER = timedelta(minutes=5)`, in seconds. -/
def REFRESH_BUFFER : Int := 300

/-- The `Config` dataclass.  `idp_type` is kept as the raw string the code
branches on (`from_env` only admits `"auth0"` and `"cognito"`, but the
provider itself tests `idp_type == "auth0"` and treats everything else as
Cognito). -/
structure Config where
  idp_type : String
  aws_region : String
  auth0_domain : Option String := none
  auth0_client_id : Option String := none
  auth0_client_secret : Option String := none
  auth0_audience : Option String := none
  aws_role_arn : Option String := none
  cognito_domain : Option String := none
  cognito_client_id : Option String := none
  cognito_client_secret : Option String := none
  cognito_resource_server : Option String := none
  cognito_credential_api_url : Option String := none
deriving Repr, DecidableEq

/-- The `CachedCredentials` dataclass. -/
structure CachedCredentials where
  access_key_id : String
  secret_access_key : String
  session_token : String
  expiration : Int
deriving Repr, DecidableEq

/-- The mutable fields of an `OidcCredentialProvider` instance:
`_oidc_token`, `_oidc_expires`, `_aws_creds`. -/
structure ProviderState where
  oidcToken : Option String
  oidcExpires : Option Int
  awsCreds : Option CachedCredentials
deriving Repr, DecidableEq

/-- The state of a freshly constructed provider (`__init__`). -/
def initialState : ProviderState := ⟨none, none, none⟩

/-- Outcome of one HTTP request: `failure` is any of a transport error, a
non-2xx response (`raise_for_status`) or an unparseable JSON body; `ok`
carries the parsed body. -/
inductive HttpResult (α : Type) where
  | failure
  | ok (body : α)
deriving Repr, DecidableEq

/-- Parsed JSON body of a token-endpoint response, restricted to the keys
the source reads: `access_token` (presence tested) and `expires_in`
(read with default 86400). -/
structure TokenResponse where
  access_token : Option String
  expires_in : Option Int
deriving Repr, DecidableEq

/-- Errors raised by the provider, one constructor per `raise` site /
propagated collaborator failure. -/
inductive ProvError where
  /-- `requests` transport error, `raise_for_status`, or `.json()` failing
  on a token-endpoint response. -/
  | tokenHttp
  /-- `RuntimeError(f"... token request failed: {result}")`: 2xx JSON body
  without an `access_token` key. -/
  | tokenMissingAccessToken
  /-- transport / non-2xx / bad JSON from the credential vending API. -/
  | credHttp
  /-- failure of the `sts.assume_role_with_web_identity` collaborator call. -/
  | stsError
  /-- `RuntimeError(f"Credential vending API error: {result['error']}")`,
  carrying the response's `error` value. -/
  | vendingApiError (err : String)
  /-- `KeyError` on `result["credentials"]`. -/
  | vendingMissingCredentials
  /-- `datetime.fromisoformat` raising on the vended `expiration` string. -/
  | vendingBadExpiration
deriving Repr, DecidableEq

/-- Python `f"{x}"` on an `Optional[str]`: `None` renders as `"None"`. -/
def pyStr : Option String → String
  | none => "None"
  | some s => s

/-- A network operation performed by the provider, for tracing. -/
inductive NetEvent where
  /-- `requests.post(url, ...)`. -/
  | post (url : String)
  /-- `sts.assume_role_with_web_identity(RoleArn=..., ...)`. -/
  | stsAssumeRole (roleArn : String)
deriving Repr, DecidableEq

/-- `f"https://{self.config.auth0_domain}/oauth/token"`. -/
def auth0TokenUrl (cfg : Config) : String :=
  "https://" ++ pyStr cfg.auth0_domain ++ "/oauth/token"

/-- `f"https://{self.config.cognito_domain}.auth.{self.config.aws_region}.amazoncognito.com/oauth2/token"`. -/
def cognitoTokenUrl (cfg : Config) : String :=
  "https://" ++ pyStr cfg.cognito_domain ++ ".auth." ++ cfg.aws_region
    ++ ".amazoncognito.com/oauth2/token"

instance {ε α : Type} [DecidableEq ε] [DecidableEq α] : DecidableEq (Except ε α) := fun a b =>
  match a, b with
  | .error e, .error f =>
    if h : e = f then isTrue (by rw [h])
    else isFalse (by intro hh; injection hh; exact h (by assumption))
  | .ok x, .ok y =>
    if h : x = y then isTrue (by rw [h])
    else isFalse (by intro hh; injection hh; exact h (by assumption))
  | .error _, .ok _ => isFalse (by intro hh; exact Except.noConfusion hh)
  | .ok _, .error _ => isFalse (by intro hh; exact Except.noConfusion hh)

/-- Result of one `get_oidc_token` (or token-helper) call: the returned
token or raised error, the provider state afterwards, and the network
events performed. -/
structure TokenCallResult where
  result : Except ProvError String
  state : ProviderState
  trace : List NetEvent
deriving Repr, DecidableEq

/-- `OidcCredentialProvider._get_auth0_token(self, now)`.  POSTs the
client-credentials grant to the Auth0 token URL; on a 2xx JSON body with
an `access_token` key it stores the token and `now + expires_in`
(default 86400) and returns the token; otherwise the error propagates and
the cache fields are untouched. -/
def getAuth0Token (cfg : Config) (st : ProviderState) (now : Int)
    (resp : HttpResult TokenResponse) : TokenCallResult :=
  let ev := NetEvent.post (auth0TokenUrl cfg)
  match resp with
  | .failure => ⟨.error .tokenHttp, st, [ev]⟩
  | .ok r =>
    match r.access_token with
    | none => ⟨.error .tokenMissingAccessToken, st, [ev]⟩
    | some tok =>
      let expires_in := r.expires_in.getD 86400
      ⟨.ok tok,
       { st with oidcToken := some tok, oidcExpires := some (now + expires_in) },
       [ev]⟩

/-- `OidcCredentialProvider._get_cognito_token(self, now)`.  Same contract
as `_get_auth0_token` against the Cognito token URL (the Basic-auth header
and form body are transport details of the POST). -/
def getCognitoToken (cfg : Config) (st : ProviderState) (now : Int)
    (resp : HttpResult TokenResponse) : TokenCallResult :=
  let ev := NetEvent.post (cognitoTokenUrl cfg)
  match resp with
  | .failure => ⟨.error .tokenHttp, st, [ev]⟩
  | .ok r =>
    match r.access_token with
    | none => ⟨.error .tokenMissingAccessToken, st, [ev]⟩
    | some tok =>
      let expires_in := r.expires_in.getD 86400
      ⟨.ok tok,
       { st with oidcToken := some tok, oidcExpires := some (now + expires_in) },
       [ev]⟩

/-- `OidcCredentialProvider.get_oidc_token(self)`.  `now` is the clock read
at entry; `resp` is the oracle for the (at most one) token-endpoint POST.
The cache guard is `if self._oidc_token and self._oidc_expires:` followed
by `if now < self._oidc_expires - self.REFRESH_BUFFER:` — note that an
empty cached token string is falsy in Python, so it never hits the cache. -/
def get_oidc_token (cfg : Config) (st : ProviderState) (now : Int)
    (resp : HttpResult TokenResponse) : TokenCallResult :=
  let fetched :=
    if cfg.idp_type = "auth0" then getAuth0Token cfg st now resp
    else getCognitoToken cfg st now resp
  match st.oidcToken, st.oidcExpires with
  | some tok, some exp =>
    if tok ≠ "" ∧ now < exp - REFRESH_BUFFER then ⟨.ok tok, st, []⟩
    else fetched
  | _, _ => fetched

example :
    get_oidc_token { idp_type := "auth0", aws_region := "eu-west-1" } ⟨some "t", some 1000, none⟩ 600
      .failure = ⟨.ok "t", ⟨some "t", some 1000, none⟩, []⟩ := by decide

example :
    (get_oidc_token { idp_type := "auth0", aws_region := "eu-west-1" } ⟨some "t", some 1000, none⟩ 800
      .failure).result = .error .tokenHttp := by decide

example :
    (get_oidc_token { idp_type := "auth0", aws_region := "eu-west-1" } ⟨some "", some 1000, none⟩ 0
      (.ok ⟨some "n", none⟩)).state.oidcExpires = some 86400 := by decide

/-- `[0,9]` digit value of a character, else `none`. -/
def digitVal (c : Char) : Option Nat :=
  if 48 ≤ c.toNat ∧ c.toNat ≤ 57 then some (c.toNat - 48) else none

/-- Two-digit decimal number. -/
def digits2 (a b : Char) : Option Nat := do
  let x ← digitVal a
  let y ← digitVal b
  pure (10 * x + y)

/-- Four-digit decimal number. -/
def digits4 (a b c d : Char) : Option Nat := do
  let x ← digits2 a b
  let y ← digits2 c d
  pure (100 * x + y)

/-- Days since 1970-01-01 of a proleptic-Gregorian civil date
(Howard Hinnant's `days_from_civil`, with floor division made explicit). -/
def daysFromCivil (y m d : Int) : Int :=
  let y' := if m ≤ 2 then y - 1 else y
  let era := Int.fdiv y' 400
  let yoe := y' - era * 400
  let mp := Int.fmod (m + 9) 12
  let doy := Int.fdiv (153 * mp + 2) 5 + d - 1
  let doe := yoe * 365 + Int.fdiv yoe 4 - Int.fdiv yoe 100 + doy
  era * 146097 + doe - 719468

/-- Epoch seconds of a parsed civil datetime with a UTC offset in minutes. -/
def epochOfCivil (y mo d h mi s : Nat) (offMin : Int) : Int :=
  daysFromCivil y mo d * 86400 + h * 3600 + mi * 60 + s - offMin * 60

/-- `datetime.fromisoformat`, restricted to the canonical
`YYYY-MM-DDTHH:MM:SS` shape with an optional `±HH:MM` offset (the shapes a
credential-vending response carries after the `Z → +00:00` normalization);
a string with no offset is taken at face value as UTC.  `none` models the
`ValueError` the source lets propagate on a malformed string. -/
def fromIso (s : String) : Option Int :=
  match s.toList with
  | [y1, y2, y3, y4, '-', a1, a2, '-', d1, d2, 'T', h1, h2, ':', i1, i2, ':', c1, c2] => do
    let y ← digits4 y1 y2 y3 y4
    let mo ← digits2 a1 a2
    let dd ← digits2 d1 d2
    let hh ← digits2 h1 h2
    let mi ← digits2 i1 i2
    let ss ← digits2 c1 c2
    pure (epochOfCivil y mo dd hh mi ss 0)
  | [y1, y2, y3, y4, '-', a1, a2, '-', d1, d2, 'T', h1, h2, ':', i1, i2, ':', c1, c2,
     sg, o1, o2, ':', o3, o4] => do
    let y ← digits4 y1 y2 y3 y4
    let mo ← digits2 a1 a2
    let dd ← digits2 d1 d2
    let hh ← digits2 h1 h2
    let mi ← digits2 i1 i2
    let ss ← digits2 c1 c2
    let oh ← digits2 o1 o2
    let om ← digits2 o3 o4
    let off : Int := oh * 60 + om
    if sg = '+' then pure (epochOfCivil y mo dd hh mi ss off)
    else if sg = '-' then pure (epochOfCivil y mo dd hh mi ss (-off))
    else none
  | _ => none

example : fromIso "1970-01-01T00:00:00+00:00" = some 0 := by decide
example : fromIso "1970-01-02T01:00:00+01:00" = some 86400 := by decide
example : fromIso "garbage" = none := by decide

/-- The `response["Credentials"]` payload of one successful
`sts.assume_role_with_web_identity` collaborator call. -/
structure StsCredentials where
  AccessKeyId : String
  SecretAccessKey : String
  SessionToken : String
  Expiration : Int
deriving Repr, DecidableEq

/-- The `result["credentials"]` object of a vending-API response; the
`expiration` field is the raw ISO-8601 string from the JSON body. -/
structure VendingCredentials where
  access_key_id : String
  secret_access_key : String
  session_token : String
  expiration : String
deriving Repr, DecidableEq

/-- Parsed JSON body of a vending-API response, restricted to the keys the
source reads: an `error` key (presence tested first) and a `credentials`
object (a `KeyError` propagates when it is absent). -/
structure VendingResponse where
  error : Option String
  credentials : Option VendingCredentials
deriving Repr, DecidableEq

/-- Result of one `get_aws_credentials` (or credentials-helper) call. -/
structure CredCallResult where
  result : Except ProvError CachedCredentials
  state : ProviderState
  trace : List NetEvent
deriving Repr, DecidableEq

/-- `OidcCredentialProvider._get_aws_credentials_auth0(self)`.  Resolves a
token through `get_oidc_token` (whose clock read is `tokNow`), then calls
the STS collaborator; on success the returned `Credentials` fields are
stored verbatim in `_aws_creds` and returned. -/
def getAwsCredentialsAuth0 (cfg : Config) (st : ProviderState) (tokNow : Int)
    (tokenResp : HttpResult TokenResponse) (stsResp : HttpResult StsCredentials) :
    CredCallResult :=
  let t := get_oidc_token cfg st tokNow tokenResp
  match t.result with
  | .error e => ⟨.error e, t.state, t.trace⟩
  | .ok _tok =>
    let ev := NetEvent.stsAssumeRole (pyStr cfg.aws_role_arn)
    match stsResp with
    | .failure => ⟨.error .stsError, t.state, t.trace ++ [ev]⟩
    | .ok creds =>
      let cached : CachedCredentials :=
        ⟨creds.AccessKeyId, creds.SecretAccessKey, creds.SessionToken, creds.Expiration⟩
      ⟨.ok cached, { t.state with awsCreds := some cached }, t.trace ++ [ev]⟩

/-- `OidcCredentialProvider._get_aws_credentials_cognito(self)`.  Resolves
a token through `get_oidc_token`, POSTs `{access_token: token}` to the
configured vending endpoint, fails on an `error` key in the response, then
parses `credentials.expiration` with `fromisoformat` after replacing every
`"Z"` with `"+00:00"`, stores the result in `_aws_creds` and returns it. -/
def getAwsCredentialsCognito (cfg : Config) (st : ProviderState) (tokNow : Int)
    (tokenResp : HttpResult TokenResponse) (vendResp : HttpResult VendingResponse) :
    CredCallResult :=
  let t := get_oidc_token cfg st tokNow tokenResp
  match t.result with
  | .error e => ⟨.error e, t.state, t.trace⟩
  | .ok _tok =>
    let ev := NetEvent.post (pyStr cfg.cognito_credential_api_url)
    match vendResp with
    | .failure => ⟨.error .credHttp, t.state, t.trace ++ [ev]⟩
    | .ok r =>
      match r.error with
      | some err => ⟨.error (.vendingApiError err), t.state, t.trace ++ [ev]⟩
      | none =>
        match r.credentials with
        | none => ⟨.error .vendingMissingCredentials, t.state, t.trace ++ [ev]⟩
        | some vc =>
          match fromIso (String.replace vc.expiration "Z" "+00:00") with
          | none => ⟨.error .vendingBadExpiration, t.state, t.trace ++ [ev]⟩
          | some exp =>
            let cached : CachedCredentials :=
              ⟨vc.access_key_id, vc.secret_access_key, vc.session_token, exp⟩
            ⟨.ok cached, { t.state with awsCreds := some cached }, t.trace ++ [ev]⟩

/-- `OidcCredentialProvider.get_aws_credentials(self)`.  `now` is the clock
read at entry; `tokNow` the clock read inside any nested `get_oidc_token`
call.  The cache guard `if self._aws_creds:` tests a dataclass instance
(always truthy when present), then `if now < expiration - REFRESH_BUFFER`. -/
def get_aws_credentials (cfg : Config) (st : ProviderState) (now tokNow : Int)
    (tokenResp : HttpResult TokenResponse) (stsResp : HttpResult StsCredentials)
    (vendResp : HttpResult VendingResponse) : CredCallResult :=
  let fetched :=
    if cfg.idp_type = "auth0" then getAwsCredentialsAuth0 cfg st tokNow tokenResp stsResp
    else getAwsCredentialsCognito cfg st tokNow tokenResp vendResp
  match st.awsCreds with
  | some c =>
    if now < c.expiration - REFRESH_BUFFER then ⟨.ok c, st, []⟩
    else fetched
  | none => fetched

/-- `_get_auth0_token` never touches the credential cache field. -/
theorem getAuth0Token_awsCreds (cfg : Config) (st : ProviderState) (now : Int)
    (resp : HttpResult TokenResponse) :
    (getAuth0Token cfg st now resp).state.awsCreds = st.awsCreds := by
  cases resp with
  | failure => rfl
  | ok r =>
    cases hr : r.access_token with
    | none => simp [getAuth0Token, hr]
    | some tok => simp [getAuth0Token, hr]

/-- `_get_cognito_token` never touches the credential cache field. -/
theorem getCognitoToken_awsCreds (cfg : Config) (st : ProviderState) (now : Int)
    (resp : HttpResult TokenResponse) :
    (getCognitoToken cfg st now resp).state.awsCreds = st.awsCreds := by
  cases resp with
  | failure => rfl
  | ok r =>
    cases hr : r.access_token with
    | none => simp [getCognitoToken, hr]
    | some tok => simp [getCognitoToken, hr]

/-- `get_oidc_token` never touches the credential cache field. -/
theorem get_oidc_token_awsCreds (cfg : Config) (st : ProviderState) (now : Int)
    (resp : HttpResult TokenResponse) :
    (get_oidc_token cfg st now resp).state.awsCreds = st.awsCreds := by
  have hA := getAuth0Token_awsCreds cfg st now resp
  have hC := getCognitoToken_awsCreds cfg st now resp
  unfold get_oidc_token
  dsimp only
  repeat' split
  all_goals first | rfl | exact hA | exact hC

/-- The decimal digit character for `n % 10`. -/
def digitChar (n : Nat) : Char :=
  match n % 10 with
  | 0 => '0' | 1 => '1' | 2 => '2' | 3 => '3' | 4 => '4'
  | 5 => '5' | 6 => '6' | 7 => '7' | 8 => '8' | _ => '9'

/-- Civil date `(year, month, day)` of a days-since-epoch count (Howard
Hinnant's `civil_from_days`, with floor division made explicit). -/
def civilFromDays (z0 : Int) : Int × Int × Int :=
  let z := z0 + 719468
  let era := Int.fdiv z 146097
  let doe := z - era * 146097
  let yoe := Int.fdiv (doe - Int.fdiv doe 1460 + Int.fdiv doe 36524 - Int.fdiv doe 146096) 365
  let y := yoe + era * 400
  let doy := doe - (365 * yoe + Int.fdiv yoe 4 - Int.fdiv yoe 100)
  let mp := Int.fdiv (5 * doy + 2) 153
  let d := doy - Int.fdiv (153 * mp + 2) 5 + 1
  let m := mp + (if mp < 10 then 3 else -9)
  (y + (if m ≤ 2 then 1 else 0), m, d)

/-- Character list of `datetime.isoformat()` output for a UTC datetime at
whole seconds: `YYYY-MM-DDTHH:MM:SS+00:00` (`datetime` years never exceed
9999, so four year digits are exact). -/
def isoChars (y mo dd h mi s : Nat) : List Char :=
  [digitChar (y / 1000), digitChar (y / 100), digitChar (y / 10), digitChar y, '-',
   digitChar (mo / 10), digitChar mo, '-', digitChar (dd / 10), digitChar dd, 'T',
   digitChar (h / 10), digitChar h, ':', digitChar (mi / 10), digitChar mi, ':',
   digitChar (s / 10), digitChar s, '+', '0', '0', ':', '0', '0']

/-- `datetime.isoformat()` on the tz-aware UTC datetime `t` seconds since
the epoch (every datetime the source builds has zero microseconds, so the
fractional part is never printed). -/
def isoformatUTC (t : Int) : String :=
  let days := Int.fdiv t 86400
  let sod := (Int.fmod t 86400).toNat
  match civilFromDays days with
  | (y, mo, dd) =>
    String.mk (isoChars y.toNat mo.toNat dd.toNat (sod / 3600) (sod % 3600 / 60) (sod % 60))

example : isoformatUTC 3600 = "1970-01-01T01:00:00+00:00" := by decide
example : isoformatUTC 1760227200 = "2025-10-12T00:00:00+00:00" := by decide
example : fromIso (isoformatUTC 1760227205) = some 1760227205 := by decide

/-- Lowercase hexadecimal digit character for `n % 16`. -/
def hexChar (n : Nat) : Char :=
  match n % 16 with
  | 0 => '0' | 1 => '1' | 2 => '2' | 3 => '3' | 4 => '4' | 5 => '5' | 6 => '6' | 7 => '7'
  | 8 => '8' | 9 => '9' | 10 => 'a' | 11 => 'b' | 12 => 'c' | 13 => 'd' | 14 => 'e' | _ => 'f'

/-- Four lowercase hex digits, as in a `\uXXXX` escape. -/
def hex4 (n : Nat) : String :=
  String.mk [hexChar (n / 4096), hexChar (n / 256), hexChar (n / 16), hexChar n]

/-- Escape of one character in `json.dumps` output (`ensure_ascii=True`,
the default): two-character escapes for the quote, the backslash and the
five control shorthands, `\uXXXX` for other control or non-ASCII
characters (a surrogate pair above the BMP), the character itself
otherwise. -/
def jsonEscapeChar (c : Char) : String :=
  if c = '"' then "\\\""
  else if c = '\\' then "\\\\"
  else if c = '\n' then "\\n"
  else if c = '\r' then "\\r"
  else if c = '\t' then "\\t"
  else if c.toNat = 8 then "\\b"
  else if c.toNat = 12 then "\\f"
  else if c.toNat < 32 then "\\u" ++ hex4 c.toNat
  else if c.toNat < 127 then String.singleton c
  else if c.toNat < 65536 then "\\u" ++ hex4 c.toNat
  else
    "\\u" ++ hex4 (55296 + (c.toNat - 65536) / 1024)
      ++ "\\u" ++ hex4 (56320 + (c.toNat - 65536) % 1024)

/-- Concatenation of a list of strings (`"".join`). -/
def strConcat : List String → String
  | [] => ""
  | s :: rest => s ++ strConcat rest

/-- A string value as rendered inside `json.dumps` output. -/
def jsonQuote (s : String) : String :=
  "\"" ++ strConcat (s.toList.map jsonEscapeChar) ++ "\""

example : jsonQuote "AKIA1" = "\"AKIA1\"" := by decide
example : jsonQuote "a\"b\\c" = "\"a\\\"b\\\\c\"" := by decide

/-- `json.dumps(output)` in `cmd_get_credentials`: the credential_process
object with keys `Version, AccessKeyId, SecretAccessKey, SessionToken,
Expiration` in insertion order and the `json.dumps` default separators
(a space after each colon and comma). -/
def credentialProcessJson (c : CachedCredentials) : String :=
  "\x7b\"Version\": 1, \"AccessKeyId\": " ++ jsonQuote c.access_key_id
    ++ ", \"SecretAccessKey\": " ++ jsonQuote c.secret_access_key
    ++ ", \"SessionToken\": " ++ jsonQuote c.session_token
    ++ ", \"Expiration\": " ++ jsonQuote (isoformatUTC c.expiration) ++ "\x7d"

/-- Outcome of one `get-credentials` process invocation: the exit code and
the bytes written to standard output (diagnostics go to stderr only). -/
structure EmissionOutcome where
  exitCode : Nat
  stdout : String
deriving Repr, DecidableEq

/-- `main` dispatching to `cmd_get_credentials` on a freshly constructed
provider: on success `print(json.dumps(output))` emits the object plus a
newline and the process exits 0; any exception is caught in `main`, logged
to stderr, and the process exits 1 with nothing on stdout. -/
def run_get_credentials (cfg : Config) (now tokNow : Int)
    (tokenResp : HttpResult TokenResponse) (stsResp : HttpResult StsCredentials)
    (vendResp : HttpResult VendingResponse) : EmissionOutcome :=
  let r := get_aws_credentials cfg initialState now tokNow tokenResp stsResp vendResp
  match r.result with
  | .ok c => ⟨0, credentialProcessJson c ++ "\n"⟩
  | .error _ => ⟨1, ""⟩

/-- A directory's files as an association list `path ↦ content`. -/
abbrev FS : Type := List (String × String)

/-- Content of a file, `none` when absent. -/
def fsGet : FS → String → Option String
  | [], _ => none
  | (q, c) :: rest, p => if q = p then some c else fsGet rest p

/-- Create or overwrite a file. -/
def fsSet : FS → String → String → FS
  | [], p, c => [(p, c)]
  | (q, d) :: rest, p, c => if q = p then (p, c) :: rest else (q, d) :: fsSet rest p c

/-- Delete a file if present. -/
def fsRemove : FS → String → FS
  | [], _ => []
  | (q, d) :: rest, p => if q = p then fsRemove rest p else (q, d) :: fsRemove rest p

/-- `Path.rename`: move `src` over `dst` (a no-op when `src` is absent,
which never happens on the source's success path). -/
def fsRename (fs : FS) (src dst : String) : FS :=
  match fsGet fs src with
  | none => fs
  | some c => fsSet (fsRemove fs src) dst c

/-- Stem of a path's final component, per `pathlib`: the suffix starts at
the last dot of the name provided that dot is neither the name's first nor
its last character; a name with no such dot has no suffix. -/
def nameStem (name : List Char) : List Char :=
  let rev := name.reverse
  let ext := rev.takeWhile (fun c => c ≠ '.')
  match rev.dropWhile (fun c => c ≠ '.') with
  | [] => name
  | _dot :: restRev =>
    if ext.isEmpty then name
    else if restRev.isEmpty then name
    else restRev.reverse

/-- `PurePath.with_suffix`: replace (or append) the suffix of the final
path component. -/
def withSuffix (path : String) (suffix : String) : String :=
  let rev := path.toList.reverse
  let revName := rev.takeWhile (fun c => c ≠ '/')
  let revDir := rev.dropWhile (fun c => c ≠ '/')
  String.mk (revDir.reverse ++ nameStem revName.reverse ++ suffix.toList)

example : withSuffix "/d/aws-credentials.env" ".tmp" = "/d/aws-credentials.tmp" := by decide
example : withSuffix "/d/aws-credentials.json" ".tmp" = "/d/aws-credentials.tmp" := by decide
example : withSuffix "/d/credentials" ".tmp" = "/d/credentials.tmp" := by decide
example : withSuffix "a.tar.gz" ".tmp" = "a.tar.tmp" := by decide
example : withSuffix "/d/.hidden" ".tmp" = "/d/.hidden.tmp" := by decide

/-- Outcome of the `tmp_path.write_text(content)` call inside
`_atomic_write`: it either succeeds, or raises with `leftover` bytes left
behind at the temporary path (`none` when it fails before creating the
file). -/
inductive WriteAttempt where
  | ok
  | fails (leftover : Option String)
deriving Repr, DecidableEq

/-- `_atomic_write(path, content)`: `tmp_path = path.with_suffix(".tmp")`,
`tmp_path.write_text(content)`, `tmp_path.rename(path)`.  Returns whether
the call completed (versus raising) and the directory afterwards.  There
is no cleanup handler: when `write_text` raises, whatever it left at the
temporary path stays there. -/
def atomicWrite (fs : FS) (path content : String) (w : WriteAttempt) : Bool × FS :=
  let tmp := withSuffix path ".tmp"
  match w with
  | .ok => (true, fsRename (fsSet fs tmp content) tmp path)
  | .fails leftover =>
    match leftover with
    | some part => (false, fsSet fs tmp part)
    | none => (false, fs)

example :
    atomicWrite [("/d/a.env", "OLD")] "/d/a.env" "NEW" .ok
      = (true, [("/d/a.env", "NEW")]) := by decide
example :
    atomicWrite [("/d/a.env", "OLD")] "/d/a.env" "NEW" (.fails (some "NE"))
      = (false, [("/d/a.env", "OLD"), ("/d/a.tmp", "NE")]) := by decide

/-- One observable action of a daemon cycle.  A `write` records one
`_atomic_write(path, content)` publication; `sleep` records
`time.sleep(interval)`. -/
inductive DaemonEvent where
  | write (path : String) (content : String)
  | sleep (seconds : Nat)
deriving Repr, DecidableEq

/-- The env-var file body written by `cmd_credential_daemon` (an f-string;
`genNow` is the cycle's `datetime.now(timezone.utc)` read). -/
def envFileContent (region : String) (genNow : Int) (c : CachedCredentials) : String :=
  "# AWS credentials - auto-refreshed by oidc-credential-provider\n# Generated: "
    ++ isoformatUTC genNow ++ "\n# Expires: " ++ isoformatUTC c.expiration
    ++ "\nexport AWS_ACCESS_KEY_ID=\"" ++ c.access_key_id
    ++ "\"\nexport AWS_SECRET_ACCESS_KEY=\"" ++ c.secret_access_key
    ++ "\"\nexport AWS_SESSION_TOKEN=\"" ++ c.session_token
    ++ "\"\nexport AWS_REGION=\"" ++ region ++ "\"\n"

/-- The JSON file body written by `cmd_credential_daemon`
(`json.dumps(..., indent=2)`). -/
def jsonFileContent (region : String) (c : CachedCredentials) : String :=
  "\x7b\n  \"access_key_id\": " ++ jsonQuote c.access_key_id
    ++ ",\n  \"secret_access_key\": " ++ jsonQuote c.secret_access_key
    ++ ",\n  \"session_token\": " ++ jsonQuote c.session_token
    ++ ",\n  \"expiration\": " ++ jsonQuote (isoformatUTC c.expiration)
    ++ ",\n  \"region\": " ++ jsonQuote region ++ "\n\x7d"

/-- The AWS SDK credentials file body written by `cmd_credential_daemon`
(`genNow` is that f-string's own `datetime.now(timezone.utc)` read). -/
def awsCredsFileContent (region : String) (genNow : Int) (c : CachedCredentials) : String :=
  "# AWS credentials - auto-refreshed by oidc-credential-provider\n# Generated: "
    ++ isoformatUTC genNow ++ "\n# Expires: " ++ isoformatUTC c.expiration
    ++ "\n[default]\naws_access_key_id = " ++ c.access_key_id
    ++ "\naws_secret_access_key = " ++ c.secret_access_key
    ++ "\naws_session_token = " ++ c.session_token
    ++ "\nregion = " ++ region ++ "\n"

/-- `creds_path / "aws-credentials.env"`. -/
def envFilePath (credsDir : String) : String := credsDir ++ "/aws-credentials.env"

/-- `creds_path / "aws-credentials.json"`. -/
def jsonFilePath (credsDir : String) : String := credsDir ++ "/aws-credentials.json"

/-- `creds_path / "credentials"`. -/
def awsCredsFilePath (credsDir : String) : String := credsDir ++ "/credentials"

/-- The `--interval` default of the `credential-daemon` subcommand. -/
def credentialDaemonDefaultInterval : Nat := 2700

/-- The `--interval` default of the `token-daemon` subcommand. -/
def tokenDaemonDefaultInterval : Nat := 3600

/-- The external inputs consumed by one credential-daemon cycle: the two
clock reads of `get_aws_credentials` / `get_oidc_token`, the clock reads
of the two `Generated:` f-strings, and the cycle's HTTP/STS oracles. -/
structure CycleEnv where
  now : Int
  tokNow : Int
  genNow1 : Int
  genNow2 : Int
  tokenResp : HttpResult TokenResponse
  stsResp : HttpResult StsCredentials
  vendResp : HttpResult VendingResponse

/-- One iteration of the `while True:` body of `cmd_credential_daemon`:
on a successful refresh, atomically publish the env, JSON and AWS SDK
credentials files then sleep; on any exception, log it (stderr only) and
still sleep.  Returns the provider state afterwards and the cycle's
events. -/
def credentialDaemonCycle (cfg : Config) (credsDir : String) (interval : Nat)
    (st : ProviderState) (env : CycleEnv) : ProviderState × List DaemonEvent :=
  let r := get_aws_credentials cfg st env.now env.tokNow env.tokenResp env.stsResp env.vendResp
  match r.result with
  | .ok creds =>
    (r.state,
     [.write (envFilePath credsDir) (envFileContent cfg.aws_region env.genNow1 creds),
      .write (jsonFilePath credsDir) (jsonFileContent cfg.aws_region creds),
      .write (awsCredsFilePath credsDir) (awsCredsFileContent cfg.aws_region env.genNow2 creds),
      .sleep interval])
  | .error _ => (r.state, [.sleep interval])

/-- `cmd_credential_daemon` run for as many cycles as there are cycle
environments (the loop itself runs until external termination and never
exits on its own; a prefix of it is what is observable).  Returns one
event list per cycle. -/
def credentialDaemonRun (cfg : Config) (credsDir : String) (interval : Nat) :
    ProviderState → List CycleEnv → List (List DaemonEvent)
  | _, [] => []
  | st, e :: rest =>
    let sc := credentialDaemonCycle cfg credsDir interval st e
    sc.2 :: credentialDaemonRun cfg credsDir interval sc.1 rest

/-- The external inputs of one token-daemon cycle. -/
structure TokenCycleEnv where
  tokNow : Int
  tokenResp : HttpResult TokenResponse

/-- One iteration of the `while True:` body of `cmd_token_daemon`. -/
def tokenDaemonCycle (cfg : Config) (tokenPath : String) (interval : Nat)
    (st : ProviderState) (env : TokenCycleEnv) : ProviderState × List DaemonEvent :=
  let r := get_oidc_token cfg st env.tokNow env.tokenResp
  match r.result with
  | .ok tok => (r.state, [.write tokenPath tok, .sleep interval])
  | .error _ => (r.state, [.sleep interval])

/-- Loop of `cmd_token_daemon`, one event list per cycle. -/
def tokenDaemonLoop (cfg : Config) (tokenPath : String) (interval : Nat) :
    ProviderState → List TokenCycleEnv → List (List DaemonEvent)
  | _, [] => []
  | st, e :: rest =>
    let sc := tokenDaemonCycle cfg tokenPath interval st e
    sc.2 :: tokenDaemonLoop cfg tokenPath interval sc.1 rest

/-- `cmd_token_daemon(provider, token_path, interval)`: when
`config.idp_type != "auth0"` it logs two errors and calls `sys.exit(1)`
before the loop — no fetch, no write, no sleep; otherwise it enters the
loop (externally terminated, exit code `none`). -/
def cmd_token_daemon (cfg : Config) (tokenPath : String) (interval : Nat)
    (st : ProviderState) (envs : List TokenCycleEnv) :
    Option Nat × List (List DaemonEvent) :=
  if cfg.idp_type ≠ "auth0" then (some 1, [])
  else (none, tokenDaemonLoop cfg tokenPath interval st envs)

/-- A concrete Auth0 configuration, for concrete evaluations. -/
def sampleAuth0Config : Config where
  idp_type := "auth0"
  aws_region := "eu-west-1"
  auth0_domain := some "tenant.auth0.com"
  auth0_client_id := some "client-id"
  auth0_client_secret := some "client-secret"
  auth0_audience := some "https://api.example.com"
  aws_role_arn := some "arn:aws:iam::123456789012:role/s3-writer"

/-- A concrete Cognito configuration, for concrete evaluations. -/
def sampleCognitoConfig : Config where
  idp_type := "cognito"
  aws_region := "eu-west-1"
  cognito_domain := some "pool-domain"
  cognito_client_id := some "cid"
  cognito_client_secret := some "csecret"
  cognito_resource_server := some "s3api"
  cognito_credential_api_url := some "https://vend.example.com/credentials"

/-- Token-cache hit: a non-empty cached token with
`now < expiry − REFRESH_BUFFER` is returned unchanged with no network
event. -/
theorem token_cache_hit (cfg : Config) (st : ProviderState) (now : Int)
    (tok : String) (exp : Int) (resp : HttpResult TokenResponse)
    (htok : st.oidcToken = some tok) (hne : tok ≠ "")
    (hexp : st.oidcExpires = some exp) (hnow : now < exp - REFRESH_BUFFER) :
    get_oidc_token cfg st now resp = ⟨.ok tok, st, []⟩ := by
  unfold get_oidc_token
  rw [htok, hexp]
  dsimp only
  rw [if_pos ⟨hne, hnow⟩]

/-- When the token-cache guard does not fire, `get_oidc_token` is exactly
the selected strategy's fetch. -/
theorem get_oidc_token_miss (cfg : Config) (st : ProviderState) (now : Int)
    (resp : HttpResult TokenResponse)
    (h : st.oidcToken = none ∨ st.oidcExpires = none ∨
      ∃ e, st.oidcExpires = some e ∧ e - now ≤ REFRESH_BUFFER) :
    get_oidc_token cfg st now resp =
      if cfg.idp_type = "auth0" then getAuth0Token cfg st now resp
      else getCognitoToken cfg st now resp := by
  obtain ⟨oT, oE, oC⟩ := st
  unfold get_oidc_token
  dsimp only at h ⊢
  rcases oT with _ | tok <;> rcases oE with _ | ex <;> dsimp only
  rcases h with h | h | ⟨e, he, hle⟩
  · exact absurd h (by simp)
  · exact absurd h (by simp)
  · injection he with he2
    subst he2
    rw [if_neg]
    rintro ⟨-, hlt⟩
    revert hle hlt
    generalize REFRESH_BUFFER = b
    omega

/-- A `get_oidc_token` call that performed a network event took the fetch
branch. -/
theorem get_oidc_token_fetched_of_trace (cfg : Config) (st : ProviderState) (now : Int)
    (resp : HttpResult TokenResponse)
    (h : (get_oidc_token cfg st now resp).trace ≠ []) :
    get_oidc_token cfg st now resp =
      if cfg.idp_type = "auth0" then getAuth0Token cfg st now resp
      else getCognitoToken cfg st now resp := by
  obtain ⟨oT, oE, oC⟩ := st
  unfold get_oidc_token at h ⊢
  dsimp only at h ⊢
  rcases oT with _ | tok <;> rcases oE with _ | ex <;> dsimp only at h ⊢
  by_cases hg : tok ≠ "" ∧ now < ex - REFRESH_BUFFER
  · rw [if_pos hg] at h; exact absurd rfl h
  · rw [if_neg hg]

/-- A failing fetch leaves `_get_auth0_token` with an error and the state
untouched. -/
theorem getAuth0Token_fail (cfg : Config) (st : ProviderState) (now : Int)
    (resp : HttpResult TokenResponse)
    (h : resp = .failure ∨ ∃ r, resp = .ok r ∧ r.access_token = none) :
    (getAuth0Token cfg st now resp).state = st ∧
      ∃ e, (getAuth0Token cfg st now resp).result = .error e := by
  rcases h with rfl | ⟨r, rfl, hr⟩
  · exact ⟨rfl, .tokenHttp, rfl⟩
  · refine ⟨by simp [getAuth0Token, hr], .tokenMissingAccessToken, by simp [getAuth0Token, hr]⟩

/-- A failing fetch leaves `_get_cognito_token` with an error and the
state untouched. -/
theorem getCognitoToken_fail (cfg : Config) (st : ProviderState) (now : Int)
    (resp : HttpResult TokenResponse)
    (h : resp = .failure ∨ ∃ r, resp = .ok r ∧ r.access_token = none) :
    (getCognitoToken cfg st now resp).state = st ∧
      ∃ e, (getCognitoToken cfg st now resp).result = .error e := by
  rcases h with rfl | ⟨r, rfl, hr⟩
  · exact ⟨rfl, .tokenHttp, rfl⟩
  · refine ⟨by simp [getCognitoToken, hr], .tokenMissingAccessToken, by simp [getCognitoToken, hr]⟩

/-- C1 (amended): for every cache state and time `now`, if a previously
cached **non-empty** OIDC token exists and `now < expiry − REFRESH_BUFFER`
(`REFRESH_BUFFER` = 5 minutes), then `get_oidc_token` returns the cached
token, leaves the state unchanged, and performs no network call. -/
theorem c1_token_cache_hit_no_fetch (cfg : Config) (st : ProviderState) (now : Int)
    (tok : String) (exp : Int) (resp : HttpResult TokenResponse)
    (htok : st.oidcToken = some tok) (hne : tok ≠ "")
    (hexp : st.oidcExpires = some exp) (hnow : now < exp - REFRESH_BUFFER) :
    get_oidc_token cfg st now resp = ⟨.ok tok, st, []⟩ :=
  token_cache_hit cfg st now tok exp resp htok hne hexp hnow

/-- Witness for C1: a concrete cache hit returns the cached token with an
empty network trace. -/
theorem c1_token_cache_hit_no_fetch_witness :
    get_oidc_token sampleAuth0Config ⟨some "cached-token", some 10000, none⟩ 600 .failure
      = ⟨.ok "cached-token", ⟨some "cached-token", some 10000, none⟩, []⟩ :=
  c1_token_cache_hit_no_fetch sampleAuth0Config ⟨some "cached-token", some 10000, none⟩ 600
    "cached-token" 10000 .failure rfl (by decide) rfl (by decide)

/-- Counterexample to C1 as stated: after the IdP returns
`{"access_token": "", "expires_in": 86400}` the cache holds the empty
token string, so a previously cached token exists and
`now < expiry − REFRESH_BUFFER`; yet the next `get_oidc_token` call still
POSTs to the token endpoint, because the guard
`if self._oidc_token and self._oidc_expires:` treats `""` as falsy. -/
theorem c1_counterexample :
    (get_oidc_token sampleAuth0Config initialState 0
        (.ok ⟨some "", some 86400⟩)).state.oidcToken = some "" ∧
    (get_oidc_token sampleAuth0Config initialState 0
        (.ok ⟨some "", some 86400⟩)).state.oidcExpires = some 86400 ∧
    (0 : Int) < 86400 - REFRESH_BUFFER ∧
    (get_oidc_token sampleAuth0Config
        (get_oidc_token sampleAuth0Config initialState 0
          (.ok ⟨some "", some 86400⟩)).state 0 .failure).trace ≠ [] := by
  decide

/-- C2 (amended): if `get_oidc_token` performed a fetch and that fetch
failed (network error, non-2xx, malformed JSON, or missing `access_token`),
the error propagates, the provider state — in particular a previously
cached token and its expiry — is exactly as before the call, and any
**non-empty** prior entry is returned by a next call made before its own
expiry-minus-buffer elapses. -/
theorem c2_fetch_failure_preserves_cache (cfg : Config) (st : ProviderState) (now : Int)
    (resp : HttpResult TokenResponse)
    (hattempt : (get_oidc_token cfg st now resp).trace ≠ [])
    (hfail : resp = .failure ∨ ∃ r, resp = .ok r ∧ r.access_token = none) :
    (∃ e, (get_oidc_token cfg st now resp).result = .error e) ∧
    (get_oidc_token cfg st now resp).state = st ∧
    (∀ (tok : String) (exp now' : Int) (resp' : HttpResult TokenResponse),
      st.oidcToken = some tok → tok ≠ "" → st.oidcExpires = some exp →
      now' < exp - REFRESH_BUFFER →
      get_oidc_token cfg st now' resp' = ⟨.ok tok, st, []⟩) := by
  have heq := get_oidc_token_fetched_of_trace cfg st now resp hattempt
  have hA := getAuth0Token_fail cfg st now resp hfail
  have hC := getCognitoToken_fail cfg st now resp hfail
  refine ⟨?_, ?_, ?_⟩
  · rw [heq]
    by_cases hb : cfg.idp_type = "auth0"
    · rw [if_pos hb]; exact hA.2
    · rw [if_neg hb]; exact hC.2
  · rw [heq]
    by_cases hb : cfg.idp_type = "auth0"
    · rw [if_pos hb]; exact hA.1
    · rw [if_neg hb]; exact hC.1
  · intro tok exp now' resp' htok hne hexp hnow
    exact token_cache_hit cfg st now' tok exp resp' htok hne hexp hnow

/-- Witness for C2: a concrete failing refresh at `now = 999800` against
the cached entry `("prev", 1000000)`: the error propagates, the state is
unchanged, and a call made before the expiry-minus-buffer returns the
entry. -/
theorem c2_fetch_failure_preserves_cache_witness :
    (∃ e, (get_oidc_token sampleAuth0Config ⟨some "prev", some 1000000, none⟩ 999800
        .failure).result = .error e) ∧
    (get_oidc_token sampleAuth0Config ⟨some "prev", some 1000000, none⟩ 999800
        .failure).state = ⟨some "prev", some 1000000, none⟩ ∧
    get_oidc_token sampleAuth0Config ⟨some "prev", some 1000000, none⟩ 0 .failure
      = ⟨.ok "prev", ⟨some "prev", some 1000000, none⟩, []⟩ := by
  have h := c2_fetch_failure_preserves_cache sampleAuth0Config
    ⟨some "prev", some 1000000, none⟩ 999800 .failure (by decide) (Or.inl rfl)
  exact ⟨h.1, h.2.1, h.2.2 "prev" 1000000 0 .failure rfl (by decide) rfl (by decide)⟩

/-- Counterexample to C2 as stated: the (reachable) cached entry
`("", 86400)`.  A fetch at `now = 0` occurs and fails; the error does
propagate and the cache is untouched — but the "still-valid" prior entry
is *not* returned by the next call made before its expiry-minus-buffer:
that call attempts another fetch instead, because the empty cached token
string never satisfies the truthiness guard. -/
theorem c2_counterexample :
    (get_oidc_token sampleAuth0Config initialState 0
        (.ok ⟨some "", some 86400⟩)).state = ⟨some "", some 86400, none⟩ ∧
    (get_oidc_token sampleAuth0Config ⟨some "", some 86400, none⟩ 0 .failure).result
        = .error .tokenHttp ∧
    (get_oidc_token sampleAuth0Config ⟨some "", some 86400, none⟩ 0 .failure).state
        = ⟨some "", some 86400, none⟩ ∧
    (0 : Int) < 86400 - REFRESH_BUFFER ∧
    (get_oidc_token sampleAuth0Config ⟨some "", some 86400, none⟩ 0 .failure).result
        ≠ .ok "" := by
  decide

/-- `_get_auth0_token` always performs exactly one POST to the Auth0 token
endpoint. -/
theorem getAuth0Token_trace (cfg : Config) (st : ProviderState) (now : Int)
    (resp : HttpResult TokenResponse) :
    (getAuth0Token cfg st now resp).trace = [.post (auth0TokenUrl cfg)] := by
  cases resp with
  | failure => rfl
  | ok r => cases hr : r.access_token <;> simp [getAuth0Token, hr]

/-- `_get_cognito_token` always performs exactly one POST to the Cognito
token endpoint. -/
theorem getCognitoToken_trace (cfg : Config) (st : ProviderState) (now : Int)
    (resp : HttpResult TokenResponse) :
    (getCognitoToken cfg st now resp).trace = [.post (cognitoTokenUrl cfg)] := by
  cases resp with
  | failure => rfl
  | ok r => cases hr : r.access_token <;> simp [getCognitoToken, hr]

/-- Successful `_get_auth0_token`: stores and returns the fetched token. -/
theorem getAuth0Token_ok (cfg : Config) (st : ProviderState) (now : Int)
    (r : TokenResponse) (tok : String) (hr : r.access_token = some tok) :
    getAuth0Token cfg st now (.ok r) =
      ⟨.ok tok,
       { st with oidcToken := some tok, oidcExpires := some (now + r.expires_in.getD 86400) },
       [.post (auth0TokenUrl cfg)]⟩ := by
  simp [getAuth0Token, hr]

/-- Successful `_get_cognito_token`: stores and returns the fetched token. -/
theorem getCognitoToken_ok (cfg : Config) (st : ProviderState) (now : Int)
    (r : TokenResponse) (tok : String) (hr : r.access_token = some tok) :
    getCognitoToken cfg st now (.ok r) =
      ⟨.ok tok,
       { st with oidcToken := some tok, oidcExpires := some (now + r.expires_in.getD 86400) },
       [.post (cognitoTokenUrl cfg)]⟩ := by
  simp [getCognitoToken, hr]

/-- C3: on a token-cache miss (no cached token, no cached expiry, or
`expiry − now ≤ REFRESH_BUFFER`) `get_oidc_token` performs exactly one
fetch against the active strategy's token endpoint; on success it stores
the returned token with expiry `now + expires_in` (defaulting `expires_in`
to 86400 when the response omits it) and returns that token. -/
theorem c3_cache_miss_single_fetch (cfg : Config) (st : ProviderState) (now : Int)
    (resp : HttpResult TokenResponse)
    (hmiss : st.oidcToken = none ∨ st.oidcExpires = none ∨
      ∃ e, st.oidcExpires = some e ∧ e - now ≤ REFRESH_BUFFER) :
    (get_oidc_token cfg st now resp).trace
      = [.post (if cfg.idp_type = "auth0" then auth0TokenUrl cfg else cognitoTokenUrl cfg)] ∧
    (∀ (r : TokenResponse) (tok : String), resp = .ok r → r.access_token = some tok →
      get_oidc_token cfg st now resp =
        ⟨.ok tok,
         { st with oidcToken := some tok, oidcExpires := some (now + r.expires_in.getD 86400) },
         [.post (if cfg.idp_type = "auth0" then auth0TokenUrl cfg else cognitoTokenUrl cfg)]⟩) := by
  have heq := get_oidc_token_miss cfg st now resp hmiss
  by_cases hb : cfg.idp_type = "auth0"
  · refine ⟨?_, ?_⟩
    · rw [heq, if_pos hb, if_pos hb]
      exact getAuth0Token_trace cfg st now resp
    · rintro r tok rfl hr
      rw [heq, if_pos hb, if_pos hb]
      exact getAuth0Token_ok cfg st now r tok hr
  · refine ⟨?_, ?_⟩
    · rw [heq, if_neg hb, if_neg hb]
      exact getCognitoToken_trace cfg st now resp
    · rintro r tok rfl hr
      rw [heq, if_neg hb, if_neg hb]
      exact getCognitoToken_ok cfg st now r tok hr

/-- Witness for C3: a fresh provider fetches once from the Auth0 endpoint
and stores the token with the default 86400-second TTL. -/
theorem c3_cache_miss_single_fetch_witness :
    (get_oidc_token sampleAuth0Config initialState 5 (.ok ⟨some "tokX", none⟩)).trace
      = [.post (if sampleAuth0Config.idp_type = "auth0" then auth0TokenUrl sampleAuth0Config
          else cognitoTokenUrl sampleAuth0Config)] ∧
    get_oidc_token sampleAuth0Config initialState 5 (.ok ⟨some "tokX", none⟩)
      = ⟨.ok "tokX",
         { initialState with
           oidcToken := some "tokX"
           oidcExpires := some (5 + (Option.getD (none : Option Int) 86400)) },
         [.post (if sampleAuth0Config.idp_type = "auth0" then auth0TokenUrl sampleAuth0Config
            else cognitoTokenUrl sampleAuth0Config)]⟩ := by
  have h := c3_cache_miss_single_fetch sampleAuth0Config initialState 5
    (.ok ⟨some "tokX", none⟩) (Or.inl rfl)
  exact ⟨h.1, h.2 ⟨some "tokX", none⟩ "tokX" rfl rfl⟩

/-- C4: when cached credentials exist with
`now < credential expiry − REFRESH_BUFFER`, `get_aws_credentials` returns
them with no network event and an unchanged state; moreover the outcome is
the same whatever the token-cache fields hold (the token path is never
consulted). -/
theorem c4_cred_cache_hit_skips_token (cfg : Config) (st : ProviderState)
    (now tokNow : Int) (c : CachedCredentials)
    (tokenResp : HttpResult TokenResponse) (stsResp : HttpResult StsCredentials)
    (vendResp : HttpResult VendingResponse)
    (hc : st.awsCreds = some c) (hnow : now < c.expiration - REFRESH_BUFFER) :
    get_aws_credentials cfg st now tokNow tokenResp stsResp vendResp = ⟨.ok c, st, []⟩ ∧
    ∀ (t : Option String) (e : Option Int),
      get_aws_credentials cfg { st with oidcToken := t, oidcExpires := e }
          now tokNow tokenResp stsResp vendResp
        = ⟨.ok c, { st with oidcToken := t, oidcExpires := e }, []⟩ := by
  constructor
  · unfold get_aws_credentials
    rw [hc]
    dsimp only
    rw [if_pos hnow]
  · intro t e
    unfold get_aws_credentials
    dsimp only
    rw [hc]
    dsimp only
    rw [if_pos hnow]

/-- Witness for C4: a concrete credentials-cache hit, returned unchanged
regardless of what the token cache holds. -/
theorem c4_cred_cache_hit_skips_token_witness :
    get_aws_credentials sampleAuth0Config ⟨none, none, some ⟨"AK", "SE", "TO", 10000⟩⟩
        600 600 .failure .failure .failure
      = ⟨.ok ⟨"AK", "SE", "TO", 10000⟩, ⟨none, none, some ⟨"AK", "SE", "TO", 10000⟩⟩, []⟩ ∧
    get_aws_credentials sampleAuth0Config ⟨some "tX", some 7, some ⟨"AK", "SE", "TO", 10000⟩⟩
        600 600 .failure .failure .failure
      = ⟨.ok ⟨"AK", "SE", "TO", 10000⟩,
         ⟨some "tX", some 7, some ⟨"AK", "SE", "TO", 10000⟩⟩, []⟩ := by
  have h := c4_cred_cache_hit_skips_token sampleAuth0Config
    ⟨none, none, some ⟨"AK", "SE", "TO", 10000⟩⟩ 600 600 ⟨"AK", "SE", "TO", 10000⟩
    .failure .failure .failure rfl (by decide)
  exact ⟨h.1, h.2 (some "tX") (some 7)⟩

/-- When the credentials-cache guard does not fire, `get_aws_credentials`
is exactly the selected strategy's exchange. -/
theorem get_aws_credentials_miss (cfg : Config) (st : ProviderState) (now tokNow : Int)
    (tokenResp : HttpResult TokenResponse) (stsResp : HttpResult StsCredentials)
    (vendResp : HttpResult VendingResponse)
    (h : st.awsCreds = none ∨
      ∃ c, st.awsCreds = some c ∧ c.expiration - now ≤ REFRESH_BUFFER) :
    get_aws_credentials cfg st now tokNow tokenResp stsResp vendResp =
      if cfg.idp_type = "auth0" then getAwsCredentialsAuth0 cfg st tokNow tokenResp stsResp
      else getAwsCredentialsCognito cfg st tokNow tokenResp vendResp := by
  obtain ⟨oT, oE, oC⟩ := st
  unfold get_aws_credentials
  dsimp only at h ⊢
  rcases oC with _ | c
  · rfl
  · rcases h with h | ⟨c2, hc2, hle⟩
    · exact absurd h (by simp)
    · injection hc2 with h2
      subst h2
      dsimp only
      rw [if_neg]
      intro hlt
      revert hle hlt
      generalize REFRESH_BUFFER = b
      omega

/-- The Cognito exchange fails with the vending response's `error` value
when that key is present, leaving the token-layer state and trace. -/
theorem getAwsCredentialsCognito_vendingError (cfg : Config) (st : ProviderState)
    (tokNow : Int) (tokenResp : HttpResult TokenResponse) (tok err : String)
    (r : VendingResponse)
    (htok : (get_oidc_token cfg st tokNow tokenResp).result = .ok tok)
    (he : r.error = some err) :
    getAwsCredentialsCognito cfg st tokNow tokenResp (.ok r)
      = ⟨.error (.vendingApiError err), (get_oidc_token cfg st tokNow tokenResp).state,
         (get_oidc_token cfg st tokNow tokenResp).trace
           ++ [.post (pyStr cfg.cognito_credential_api_url)]⟩ := by
  unfold getAwsCredentialsCognito
  dsimp only
  rw [htok]
  dsimp only
  rw [he]

/-- C5: for a VendingAPI (cognito) configuration, when the vending
endpoint's 2xx JSON body contains `"error": "invalid_client"` (and the
token layer produced a token), `get_aws_credentials` fails with the
exchange error carrying `"invalid_client"`, the credential cache is
unchanged, and the credential-file daemon's cycle publishes no file —
its only event is the sleep. -/
theorem c5_vending_error_no_publication (cfg : Config) (st : ProviderState)
    (now tokNow genNow1 genNow2 : Int) (tok credsDir : String) (interval : Nat)
    (tokenResp : HttpResult TokenResponse) (stsResp : HttpResult StsCredentials)
    (r : VendingResponse)
    (hidp : cfg.idp_type = "cognito")
    (hmiss : st.awsCreds = none ∨
      ∃ c, st.awsCreds = some c ∧ c.expiration - now ≤ REFRESH_BUFFER)
    (htok : (get_oidc_token cfg st tokNow tokenResp).result = .ok tok)
    (hr : r.error = some "invalid_client") :
    (get_aws_credentials cfg st now tokNow tokenResp stsResp (.ok r)).result
        = .error (.vendingApiError "invalid_client") ∧
    (get_aws_credentials cfg st now tokNow tokenResp stsResp (.ok r)).state.awsCreds
        = st.awsCreds ∧
    (credentialDaemonCycle cfg credsDir interval st
        ⟨now, tokNow, genNow1, genNow2, tokenResp, stsResp, .ok r⟩).2
        = [.sleep interval] := by
  have hb : ¬ cfg.idp_type = "auth0" := by rw [hidp]; decide
  have hmisseq := get_aws_credentials_miss cfg st now tokNow tokenResp stsResp (.ok r) hmiss
  rw [if_neg hb] at hmisseq
  have hvend := getAwsCredentialsCognito_vendingError cfg st tokNow tokenResp tok
    "invalid_client" r htok hr
  refine ⟨?_, ?_, ?_⟩
  · rw [hmisseq, hvend]
  · rw [hmisseq, hvend]
    exact get_oidc_token_awsCreds cfg st tokNow tokenResp
  · unfold credentialDaemonCycle
    dsimp only
    rw [hmisseq, hvend]

/-- Witness for C5: a concrete Cognito run whose vending response is
`{"error": "invalid_client"}`. -/
theorem c5_vending_error_no_publication_witness :
    (get_aws_credentials sampleCognitoConfig initialState 0 0
        (.ok ⟨some "ctok", some 3600⟩) .failure (.ok ⟨some "invalid_client", none⟩)).result
      = .error (.vendingApiError "invalid_client") ∧
    (get_aws_credentials sampleCognitoConfig initialState 0 0
        (.ok ⟨some "ctok", some 3600⟩) .failure (.ok ⟨some "invalid_client", none⟩)).state.awsCreds
      = initialState.awsCreds ∧
    (credentialDaemonCycle sampleCognitoConfig "/var/run/aws-creds" 2700 initialState
        ⟨0, 0, 0, 0, .ok ⟨some "ctok", some 3600⟩, .failure, .ok ⟨some "invalid_client", none⟩⟩).2
      = [.sleep 2700] :=
  c5_vending_error_no_publication sampleCognitoConfig initialState 0 0 0 0 "ctok"
    "/var/run/aws-creds" 2700 (.ok ⟨some "ctok", some 3600⟩) .failure
    ⟨some "invalid_client", none⟩ rfl (Or.inl rfl) (by decide) rfl

/-- Reading back a just-written file. -/
theorem fsGet_fsSet_self (fs : FS) (p c : String) : fsGet (fsSet fs p c) p = some c := by
  induction fs with
  | nil => simp [fsSet, fsGet]
  | cons hd rest ih =>
    obtain ⟨q, d⟩ := hd
    by_cases h : q = p
    · simp [fsSet, fsGet, h]
    · simp [fsSet, fsGet, h, ih]

/-- Writing one file leaves every other path's content unchanged. -/
theorem fsGet_fsSet_ne (fs : FS) (p q c : String) (h : q ≠ p) :
    fsGet (fsSet fs q c) p = fsGet fs p := by
  induction fs with
  | nil => simp [fsSet, fsGet, h]
  | cons hd rest ih =>
    obtain ⟨x, d⟩ := hd
    by_cases hx : x = q
    · subst hx
      simp [fsSet, fsGet, h]
    · by_cases hxp : x = p
      · simp [fsSet, fsGet, hx, hxp, Ne.symm h]
      · simp [fsSet, fsGet, hx, hxp, ih]

/-- C6 (amended): when writing the new content to the temporary path
fails, `_atomic_write` raises, the rename into place does not happen, and
— for any target path distinct from its own `.tmp` sibling — the
previously published target file is left untouched; however the temporary
file is **not** discarded: whatever the failed write left at the temporary
path remains on disk.  The rename into place happens only on the success
path, which installs the new content at the target. -/
theorem c6_atomic_write_failure (fs : FS) (path content : String)
    (leftover : Option String) (hne : withSuffix path ".tmp" ≠ path) :
    (atomicWrite fs path content (.fails leftover)).1 = false ∧
    fsGet (atomicWrite fs path content (.fails leftover)).2 path = fsGet fs path ∧
    (∀ part, leftover = some part →
      fsGet (atomicWrite fs path content (.fails leftover)).2 (withSuffix path ".tmp")
        = some part) ∧
    fsGet (atomicWrite fs path content .ok).2 path = some content := by
  refine ⟨?_, ?_, ?_, ?_⟩
  · cases leftover <;> rfl
  · cases leftover with
    | none => rfl
    | some part =>
      show fsGet (fsSet fs (withSuffix path ".tmp") part) path = fsGet fs path
      exact fsGet_fsSet_ne fs path (withSuffix path ".tmp") part hne
  · rintro part rfl
    show fsGet (fsSet fs (withSuffix path ".tmp") part) (withSuffix path ".tmp") = some part
    exact fsGet_fsSet_self fs (withSuffix path ".tmp") part
  · show fsGet (fsRename (fsSet fs (withSuffix path ".tmp") content)
        (withSuffix path ".tmp") path) path = some content
    unfold fsRename
    rw [fsGet_fsSet_self]
    exact fsGet_fsSet_self _ path content

/-- Witness for C6 (amended): a concrete failed overwrite leaves the old
target in place with the partial bytes at the `.tmp` path, and a
successful one installs the new content. -/
theorem c6_atomic_write_failure_witness :
    (atomicWrite [("/d/out.env", "OLD")] "/d/out.env" "NEW" (.fails (some "NE"))).1 = false ∧
    fsGet (atomicWrite [("/d/out.env", "OLD")] "/d/out.env" "NEW" (.fails (some "NE"))).2
        "/d/out.env" = fsGet [("/d/out.env", "OLD")] "/d/out.env" ∧
    (∀ part, (some "NE" : Option String) = some part →
      fsGet (atomicWrite [("/d/out.env", "OLD")] "/d/out.env" "NEW" (.fails (some "NE"))).2
          (withSuffix "/d/out.env" ".tmp") = some part) ∧
    fsGet (atomicWrite [("/d/out.env", "OLD")] "/d/out.env" "NEW" .ok).2 "/d/out.env"
      = some "NEW" :=
  c6_atomic_write_failure [("/d/out.env", "OLD")] "/d/out.env" "NEW" (some "NE") (by decide)

/-- Counterexample to C6 as stated: a failed write to the temporary path
does *not* discard the temporary file — the partial content remains on
disk at `aws-credentials.tmp` (there is no cleanup handler in
`_atomic_write`). -/
theorem c6_counterexample :
    (atomicWrite [("/d/aws-credentials.env", "OLD")] "/d/aws-credentials.env" "NEW"
        (.fails (some "NE"))).1 = false ∧
    fsGet (atomicWrite [("/d/aws-credentials.env", "OLD")] "/d/aws-credentials.env" "NEW"
        (.fails (some "NE"))).2 "/d/aws-credentials.tmp" = some "NE" ∧
    fsGet (atomicWrite [("/d/aws-credentials.env", "OLD")] "/d/aws-credentials.env" "NEW"
        (.fails (some "NE"))).2 "/d/aws-credentials.tmp" ≠ none := by
  decide

/-- A decimal digit character is its own `json.dumps` escape. -/
theorem jsonEscapeChar_digitChar (n : Nat) :
    jsonEscapeChar (digitChar n) = String.singleton (digitChar n) := by
  have h : n % 10 = 0 ∨ n % 10 = 1 ∨ n % 10 = 2 ∨ n % 10 = 3 ∨ n % 10 = 4 ∨ n % 10 = 5 ∨
      n % 10 = 6 ∨ n % 10 = 7 ∨ n % 10 = 8 ∨ n % 10 = 9 := by omega
  unfold digitChar
  rcases h with h|h|h|h|h|h|h|h|h|h <;> rw [h] <;> decide

/-- Escaping a list of self-escaping characters is the identity. -/
theorem strConcat_map_plain (l : List Char)
    (h : ∀ c ∈ l, jsonEscapeChar c = String.singleton c) :
    strConcat (l.map jsonEscapeChar) = String.mk l := by
  induction l with
  | nil => rfl
  | cons c rest ih =>
    simp only [List.map_cons, strConcat]
    rw [h c (by simp), ih (fun x hx => h x (by simp [hx]))]
    rfl

/-- `jsonQuote` on a string of self-escaping characters just wraps it in
double quotes. -/
theorem jsonQuote_plain (l : List Char)
    (h : ∀ c ∈ l, jsonEscapeChar c = String.singleton c) :
    jsonQuote (String.mk l) = "\"" ++ String.mk l ++ "\"" := by
  unfold jsonQuote
  rw [show (String.mk l).toList = l from rfl, strConcat_map_plain l h]

/-- Every character an ISO timestamp is built from is self-escaping. -/
theorem isoChars_mem_plain (y mo dd h mi s : Nat) :
    ∀ c ∈ isoChars y mo dd h mi s, jsonEscapeChar c = String.singleton c := by
  intro c hc
  fin_cases hc <;> first | apply jsonEscapeChar_digitChar | decide

/-- An `isoformat()` output needs no JSON escaping. -/
theorem jsonQuote_isoformatUTC (t : Int) :
    jsonQuote (isoformatUTC t) = "\"" ++ isoformatUTC t ++ "\"" := by
  unfold isoformatUTC
  dsimp only
  rcases civilFromDays (Int.fdiv t 86400) with ⟨y, mo, dd⟩
  exact jsonQuote_plain _ (isoChars_mem_plain _ _ _ _ _ _)

/-- String concatenation is associative. -/
theorem strAppend_assoc (a b c : String) : a ++ b ++ c = a ++ (b ++ c) := by
  rcases a with ⟨x⟩
  rcases b with ⟨y⟩
  rcases c with ⟨z⟩
  show String.mk ((x ++ y) ++ z) = String.mk (x ++ (y ++ z))
  rw [List.append_assoc]

/-- The credential_process JSON line for the round-trip collaborator
values, with the Expiration field spelled out. -/
theorem credentialProcessJson_roundTrip (exp : Int) :
    credentialProcessJson ⟨"AKIA1", "s3cr3t", "tok1", exp⟩ =
      "\x7b\"Version\": 1, \"AccessKeyId\": \"AKIA1\", \"SecretAccessKey\": \"s3cr3t\", \"SessionToken\": \"tok1\", \"Expiration\": \""
        ++ isoformatUTC exp ++ "\"\x7d" := by
  unfold credentialProcessJson
  dsimp only
  rw [jsonQuote_isoformatUTC]
  rw [show jsonQuote "AKIA1" = "\"AKIA1\"" from by decide]
  rw [show jsonQuote "s3cr3t" = "\"s3cr3t\"" from by decide]
  rw [show jsonQuote "tok1" = "\"tok1\"" from by decide]
  rcases isoformatUTC exp with ⟨l⟩
  exact congrArg String.mk (by simp)

/-- C7 (amended): a `get-credentials` run on a fresh DirectAssumeRole
(auth0) provider whose token step succeeds and whose STS collaborator
returns `{AccessKeyId: "AKIA1", SecretAccessKey: "s3cr3t", SessionToken:
"tok1", Expiration: t0+3600}` exits 0 and writes to standard output one
JSON object with the collaborator's field values verbatim and the
Expiration in ISO-8601 — in `json.dumps` default rendering, i.e. with a
space after every colon and comma, followed by the `print` newline. -/
theorem c7_emission_round_trip (cfg : Config) (tok : String) (t0 now tokNow : Int)
    (tokenResp : HttpResult TokenResponse) (vendResp : HttpResult VendingResponse)
    (hidp : cfg.idp_type = "auth0")
    (htok : (get_oidc_token cfg initialState tokNow tokenResp).result = .ok tok) :
    run_get_credentials cfg now tokNow tokenResp
        (.ok ⟨"AKIA1", "s3cr3t", "tok1", t0 + 3600⟩) vendResp
      = ⟨0, "\x7b\"Version\": 1, \"AccessKeyId\": \"AKIA1\", \"SecretAccessKey\": \"s3cr3t\", \"SessionToken\": \"tok1\", \"Expiration\": \""
            ++ isoformatUTC (t0 + 3600) ++ "\"\x7d" ++ "\n"⟩ := by
  unfold run_get_credentials
  have hmiss := get_aws_credentials_miss cfg initialState now tokNow tokenResp
    (.ok ⟨"AKIA1", "s3cr3t", "tok1", t0 + 3600⟩) vendResp (Or.inl rfl)
  rw [hmiss, if_pos hidp]
  unfold getAwsCredentialsAuth0
  dsimp only
  rw [htok]
  dsimp only
  rw [credentialProcessJson_roundTrip]

/-- Witness for C7 (amended): the concrete run at `t0 = 0` exits 0 with
the spaced `json.dumps` line on stdout. -/
theorem c7_emission_round_trip_witness :
    run_get_credentials sampleAuth0Config 0 0 (.ok ⟨some "oidc-tok", some 3600⟩)
        (.ok ⟨"AKIA1", "s3cr3t", "tok1", 0 + 3600⟩) .failure
      = ⟨0, "\x7b\"Version\": 1, \"AccessKeyId\": \"AKIA1\", \"SecretAccessKey\": \"s3cr3t\", \"SessionToken\": \"tok1\", \"Expiration\": \""
            ++ isoformatUTC (0 + 3600) ++ "\"\x7d" ++ "\n"⟩ :=
  c7_emission_round_trip sampleAuth0Config "oidc-tok" 0 0 0
    (.ok ⟨some "oidc-tok", some 3600⟩) .failure rfl (by decide)

/-- Counterexample to C7 as stated: at `t0 = 0` the process does exit 0,
but stdout is not the compact byte string the claim fixes —
`json.dumps`'s default separators put a space after every colon and comma
(and `print` appends a newline). -/
theorem c7_counterexample :
    (run_get_credentials sampleAuth0Config 0 0 (.ok ⟨some "oidc-tok", some 3600⟩)
        (.ok ⟨"AKIA1", "s3cr3t", "tok1", 3600⟩) .failure).exitCode = 0 ∧
    (run_get_credentials sampleAuth0Config 0 0 (.ok ⟨some "oidc-tok", some 3600⟩)
        (.ok ⟨"AKIA1", "s3cr3t", "tok1", 3600⟩) .failure).stdout
      ≠ "\x7b\"Version\":1,\"AccessKeyId\":\"AKIA1\",\"SecretAccessKey\":\"s3cr3t\",\"SessionToken\":\"tok1\",\"Expiration\":\"1970-01-01T01:00:00+00:00\"\x7d" ∧
    (run_get_credentials sampleAuth0Config 0 0 (.ok ⟨some "oidc-tok", some 3600⟩)
        (.ok ⟨"AKIA1", "s3cr3t", "tok1", 3600⟩) .failure).stdout
      ≠ "\x7b\"Version\":1,\"AccessKeyId\":\"AKIA1\",\"SecretAccessKey\":\"s3cr3t\",\"SessionToken\":\"tok1\",\"Expiration\":\"1970-01-01T01:00:00+00:00\"\x7d\n" ∧
    (run_get_credentials sampleAuth0Config 0 0 (.ok ⟨some "oidc-tok", some 3600⟩)
        (.ok ⟨"AKIA1", "s3cr3t", "tok1", 3600⟩) .failure).stdout
      = "\x7b\"Version\": 1, \"AccessKeyId\": \"AKIA1\", \"SecretAccessKey\": \"s3cr3t\", \"SessionToken\": \"tok1\", \"Expiration\": \"1970-01-01T01:00:00+00:00\"\x7d\n" := by
  decide

/-- C8: starting the token-file daemon with a VendingAPI (cognito)
configuration fails at startup with exit code 1: no cycle runs, so no
token fetch, no file write and no sleep occurs. -/
theorem c8_token_daemon_cognito_fails_fast (cfg : Config) (tokenPath : String)
    (interval : Nat) (st : ProviderState) (envs : List TokenCycleEnv)
    (h : cfg.idp_type = "cognito") :
    cmd_token_daemon cfg tokenPath interval st envs = (some 1, []) := by
  unfold cmd_token_daemon
  rw [if_pos]
  rw [h]
  decide

/-- Witness for C8: the concrete Cognito configuration exits 1 before any
cycle. -/
theorem c8_token_daemon_cognito_fails_fast_witness :
    cmd_token_daemon sampleCognitoConfig "/var/run/oidc/token" 3600 initialState
        [⟨0, .failure⟩] = (some 1, []) :=
  c8_token_daemon_cognito_fails_fast sampleCognitoConfig "/var/run/oidc/token" 3600
    initialState [⟨0, .failure⟩] rfl

/-- Every credential-daemon cycle ends with `time.sleep(interval)`,
whatever the refresh outcome. -/
theorem credentialDaemonCycle_ends_sleep (cfg : Config) (credsDir : String)
    (interval : Nat) (st : ProviderState) (env : CycleEnv) :
    ∃ pre, (credentialDaemonCycle cfg credsDir interval st env).2
      = pre ++ [DaemonEvent.sleep interval] := by
  unfold credentialDaemonCycle
  dsimp only
  rcases (get_aws_credentials cfg st env.now env.tokNow env.tokenResp
      env.stsResp env.vendResp).result with e | creds
  · exact ⟨[], rfl⟩
  · exact ⟨[.write (envFilePath credsDir) (envFileContent cfg.aws_region env.genNow1 creds),
           .write (jsonFilePath credsDir) (jsonFileContent cfg.aws_region creds),
           .write (awsCredsFilePath credsDir) (awsCredsFileContent cfg.aws_region env.genNow2 creds)],
          rfl⟩

/-- C9: over any sequence of cycle environments the credential-file daemon
produces exactly one event list per cycle (no exchange error ever
terminates the loop or escapes it — the run function is total and never
short), every cycle's event list ends with a sleep of the configured
interval whether the refresh succeeded or failed, and the configured
interval defaults to 2700 seconds. -/
theorem c9_daemon_sleeps_every_cycle (cfg : Config) (credsDir : String)
    (interval : Nat) (st : ProviderState) (envs : List CycleEnv) :
    (credentialDaemonRun cfg credsDir interval st envs).length = envs.length ∧
    (∀ cyc ∈ credentialDaemonRun cfg credsDir interval st envs,
      ∃ pre, cyc = pre ++ [DaemonEvent.sleep interval]) ∧
    credentialDaemonDefaultInterval = 2700 := by
  refine ⟨?_, ?_, rfl⟩
  · induction envs generalizing st with
    | nil => rfl
    | cons e rest ih => simp [credentialDaemonRun, ih]
  · induction envs generalizing st with
    | nil =>
      intro cyc hc
      exact absurd hc (by simp [credentialDaemonRun])
    | cons e rest ih =>
      intro cyc hc
      simp only [credentialDaemonRun] at hc
      rcases List.mem_cons.mp hc with rfl | hmem
      · exact credentialDaemonCycle_ends_sleep cfg credsDir interval st e
      · exact ih _ cyc hmem

/-- Witness for C9: a concrete two-cycle run — one successful refresh, one
failed one — yields two event lists, and the failed cycle's list still
ends with the sleep. -/
theorem c9_daemon_sleeps_every_cycle_witness :
    (credentialDaemonRun sampleAuth0Config "/var/run/aws-creds" 2700 initialState
        [⟨0, 0, 0, 0, .ok ⟨some "t1", some 7200⟩, .ok ⟨"AK", "SE", "TO", 3600⟩, .failure⟩,
         ⟨4000, 4000, 4000, 4000, .failure, .failure, .failure⟩]).length = 2 ∧
    (∃ pre, [DaemonEvent.sleep 2700] = pre ++ [DaemonEvent.sleep 2700]) := by
  have h := c9_daemon_sleeps_every_cycle sampleAuth0Config "/var/run/aws-creds" 2700
    initialState
    [⟨0, 0, 0, 0, .ok ⟨some "t1", some 7200⟩, .ok ⟨"AK", "SE", "TO", 3600⟩, .failure⟩,
     ⟨4000, 4000, 4000, 4000, .failure, .failure, .failure⟩]
  exact ⟨h.1, h.2.1 [DaemonEvent.sleep 2700] (by decide)⟩

/-- `takeWhile`/`dropWhile` split at the first element failing the
predicate. -/
theorem takeWhile_drop_split (p : Char → Bool) (l₁ : List Char) (a : Char)
    (l₂ : List Char) (h₁ : ∀ c ∈ l₁, p c = true) (ha : p a = false) :
    (l₁ ++ a :: l₂).takeWhile p = l₁ ∧ (l₁ ++ a :: l₂).dropWhile p = a :: l₂ := by
  induction l₁ with
  | nil => simp [List.takeWhile, List.dropWhile, ha]
  | cons c rest ih =>
    have hc : p c = true := h₁ c (by simp)
    have hr := ih (fun x hx => h₁ x (by simp [hx]))
    simp [List.takeWhile, List.dropWhile, hc, hr.1, hr.2]

/-- `with_suffix` on `dir/name` (with a slash-free name) rewrites only the
name's suffix. -/
theorem withSuffix_concat (d nm : List Char) (suf : String)
    (h : ∀ c ∈ nm, decide (c ≠ '/') = true) :
    withSuffix (String.mk (d ++ '/' :: nm)) suf
      = String.mk (d ++ '/' :: (nameStem nm ++ suf.toList)) := by
  unfold withSuffix
  dsimp only
  have hrev : (String.mk (d ++ '/' :: nm)).toList.reverse
      = nm.reverse ++ '/' :: d.reverse := by
    show (d ++ '/' :: nm).reverse = _
    rw [List.reverse_append, List.reverse_cons, List.append_assoc]
    rfl
  rw [hrev]
  have key := takeWhile_drop_split (fun c => decide (c ≠ '/')) nm.reverse '/' d.reverse
    (fun c hc => h c (List.mem_reverse.mp hc)) (by decide)
  rw [key.1, key.2, List.reverse_reverse, List.reverse_cons, List.reverse_reverse,
    List.append_assoc]
  simp

/-- The temporary path of the daemon's env file. -/
theorem withSuffix_envFilePath (credsDir : String) :
    withSuffix (envFilePath credsDir) ".tmp" = credsDir ++ "/aws-credentials.tmp" := by
  rcases credsDir with ⟨d⟩
  have h := withSuffix_concat d "aws-credentials.env".toList ".tmp" (by decide)
  calc withSuffix (envFilePath (String.mk d)) ".tmp"
      = withSuffix (String.mk (d ++ '/' :: "aws-credentials.env".toList)) ".tmp" := rfl
    _ = String.mk (d ++ '/' :: (nameStem "aws-credentials.env".toList ++ ".tmp".toList)) := h
    _ = String.mk d ++ "/aws-credentials.tmp" := by
          rw [show nameStem "aws-credentials.env".toList = "aws-credentials".toList from
            by decide]
          rfl

/-- The temporary path of the daemon's JSON file. -/
theorem withSuffix_jsonFilePath (credsDir : String) :
    withSuffix (jsonFilePath credsDir) ".tmp" = credsDir ++ "/aws-credentials.tmp" := by
  rcases credsDir with ⟨d⟩
  have h := withSuffix_concat d "aws-credentials.json".toList ".tmp" (by decide)
  calc withSuffix (jsonFilePath (String.mk d)) ".tmp"
      = withSuffix (String.mk (d ++ '/' :: "aws-credentials.json".toList)) ".tmp" := rfl
    _ = String.mk (d ++ '/' :: (nameStem "aws-credentials.json".toList ++ ".tmp".toList)) := h
    _ = String.mk d ++ "/aws-credentials.tmp" := by
          rw [show nameStem "aws-credentials.json".toList = "aws-credentials".toList from
            by decide]
          rfl

/-- The temporary path of the daemon's AWS SDK credentials file. -/
theorem withSuffix_awsCredsFilePath (credsDir : String) :
    withSuffix (awsCredsFilePath credsDir) ".tmp" = credsDir ++ "/credentials.tmp" := by
  rcases credsDir with ⟨d⟩
  have h := withSuffix_concat d "credentials".toList ".tmp" (by decide)
  calc withSuffix (awsCredsFilePath (String.mk d)) ".tmp"
      = withSuffix (String.mk (d ++ '/' :: "credentials".toList)) ".tmp" := rfl
    _ = String.mk (d ++ '/' :: (nameStem "credentials".toList ++ ".tmp".toList)) := h
    _ = String.mk d ++ "/credentials.tmp" := by
          rw [show nameStem "credentials".toList = "credentials".toList from by decide]
          rfl

/-- C10: the temporary path of an atomic write replaces the target's final
suffix with `.tmp`, so within one credential-daemon cycle the env file and
the JSON file are staged through the identical temporary path
`aws-credentials.tmp` — per-file temporary paths are not unique (the AWS
SDK `credentials` file alone gets its own `credentials.tmp`). -/
theorem c10_env_json_share_tmp_path (credsDir : String) :
    withSuffix (envFilePath credsDir) ".tmp" = withSuffix (jsonFilePath credsDir) ".tmp" ∧
    withSuffix (envFilePath credsDir) ".tmp" = credsDir ++ "/aws-credentials.tmp" ∧
    withSuffix (awsCredsFilePath credsDir) ".tmp" = credsDir ++ "/credentials.tmp" := by
  have h1 := withSuffix_envFilePath credsDir
  have h2 := withSuffix_jsonFilePath credsDir
  have h3 := withSuffix_awsCredsFilePath credsDir
  exact ⟨h1.trans h2.symm, h1, h3⟩
